import Mathlib

/-
Verification of tiktok_barber_stream.py, a script that streams a TikTok
metadata dataset, keeps the records whose description contains a barber
related keyword and writes the matches to a single parquet file.

The script is embedded shallowly:
  * a record is an association list from field name to value (a Python dict);
  * the streaming source is a list of records followed by an optional
    exception, or an exception raised by load_dataset itself;
  * the for-loop over the stream (lines 50-68) becomes the structurally
    recursive function streamLoop, with the same counter, the same append
    on match and the same safety break at 100000 records;
  * the run outcome is either a written parquet file (rows plus the final
    summary note chosen at lines 115-118) or a crash of the process.

Case folding is modelled on ASCII (Char.toLower), matching Python str.lower
on the ASCII keywords and descriptions this program works with.
-/

namespace TikTokBarber

/-- A field value of a record: the script only distinguishes strings
(checked with isinstance(description, str)) from everything else. -/
inductive Value where
  | vStr (s : String)
  | vNat (n : Nat)
  deriving DecidableEq

/-- A record is an associative mapping from field name to value. -/
abbrev Record := List (String × Value)

/-- Dictionary lookup: the value bound to a key, if any. -/
def findVal : Record → String → Option Value
  | [], _ => none
  | (k, v) :: rest, key => if k = key then some v else findVal rest key

/-- Python record.get(key, default): the bound value, or the default. -/
def getD (r : Record) (key : String) (d : Value) : Value :=
  (findVal r key).getD d

/-- The fixed keyword list of line 36. -/
def keywords : List String := ["barber", "haircut", "fade", "clippers", "shave"]

/-- Python substring test: needle occurs contiguously in the haystack. -/
def hasSub (needle : List Char) : List Char → Bool
  | [] => needle.isEmpty
  | c :: cs => needle.isPrefixOf (c :: cs) || hasSub needle cs

/-- Embeds any(kw in description.lower() for kw in keywords) from line 55:
the description is lowercased character by character and each keyword is
tested as a substring of the result. -/
def matchesKeyword (s : String) : Bool :=
  keywords.any fun kw => hasSub kw.data (s.data.map Char.toLower)

/-- The per-record predicate of lines 54-55: read the description field with
default the empty string, require it to be a string, and test the keywords
against its lowercase form. -/
def recordMatches (r : Record) : Bool :=
  match getD r "description" (Value.vStr "") with
  | Value.vStr s => matchesKeyword s
  | _ => false

/-- The for-loop of lines 50-68: pull records one at a time, count them in
video_count, append a matching record to filtered_records, and break once
video_count has reached 100000 (the SAFETY BREAK). Returns the final
video_count and filtered_records. -/
def streamLoop : List Record → Nat → List Record → Nat × List Record
  | [], video_count, filtered_records => (video_count, filtered_records)
  | record :: rest, video_count, filtered_records =>
    let video_count := video_count + 1
    let filtered_records :=
      if recordMatches record then filtered_records ++ [record] else filtered_records
    if 100000 ≤ video_count then (video_count, filtered_records)
    else streamLoop rest video_count filtered_records

/-- Outcome of the external source.
loadError: load_dataset itself raises (unknown dataset, unreachable hub),
before line 36 binds the keywords local.
stream recs raisesAfter: load_dataset succeeds and the iterator yields recs;
when raisesAfter is true the iterator raises instead of terminating after
the last element of recs (so any failing prefix of a stream is covered). -/
inductive Source where
  | loadError
  | stream (recs : List Record) (raisesAfter : Bool)
  deriving DecidableEq

/-- What the run does to the sink. wrote rows streamedNote: the parquet file
is written with the given rows, and streamedNote records which summary line
115-118 prints (true: the streaming note, printed when video_count > 100;
false: the quick-simulation-fallback note). crash: an exception escapes
filter_tiktok_data and no file is written. -/
inductive RunResult where
  | crash
  | wrote (rows : List Record) (streamedNote : Bool)
  deriving DecidableEq

/-- Whether the run wrote the output file. -/
def writesFile : RunResult → Bool
  | RunResult.crash => false
  | RunResult.wrote _ _ => true

/-- The fallback dict of lines 80-91, one record per row, all six columns. -/
def data : List Record :=
  [ [("video_id", Value.vNat 1001),
     ("description", Value.vStr "Fresh haircut by my local barber!"),
     ("views", Value.vNat 100000), ("likes", Value.vNat 12000),
     ("user_id", Value.vStr "u1"), ("upload_date", Value.vStr "2023-10-01")],
    [("video_id", Value.vNat 1002),
     ("description", Value.vStr "Best cooking recipe ever."),
     ("views", Value.vNat 5000), ("likes", Value.vNat 500),
     ("user_id", Value.vStr "u2"), ("upload_date", Value.vStr "2023-10-01")],
    [("video_id", Value.vNat 1003),
     ("description", Value.vStr "Check out my new dog groomer."),
     ("views", Value.vNat 20000), ("likes", Value.vNat 2500),
     ("user_id", Value.vStr "u3"), ("upload_date", Value.vStr "2023-10-02")],
    [("video_id", Value.vNat 1004),
     ("description", Value.vStr "Need a summer cut? Find a good barber."),
     ("views", Value.vNat 150000), ("likes", Value.vNat 18000),
     ("user_id", Value.vStr "u4"), ("upload_date", Value.vStr "2023-10-02")],
    [("video_id", Value.vNat 1005),
     ("description", Value.vStr "Coding tutorial for beginners."),
     ("views", Value.vNat 300), ("likes", Value.vNat 50),
     ("user_id", Value.vStr "u5"), ("upload_date", Value.vStr "2023-10-03")],
    [("video_id", Value.vNat 1006),
     ("description", Value.vStr "Barber shop vibes and clean fades."),
     ("views", Value.vNat 250000), ("likes", Value.vNat 30000),
     ("user_id", Value.vStr "u6"), ("upload_date", Value.vStr "2023-10-03")],
    [("video_id", Value.vNat 1007),
     ("description", Value.vStr "History documentary about kings."),
     ("views", Value.vNat 1000), ("likes", Value.vNat 100),
     ("user_id", Value.vStr "u7"), ("upload_date", Value.vStr "2023-10-04")],
    [("video_id", Value.vNat 1008),
     ("description", Value.vStr "Epic video game stream."),
     ("views", Value.vNat 50000), ("likes", Value.vNat 6000),
     ("user_id", Value.vStr "u8"), ("upload_date", Value.vStr "2023-10-04")],
    [("video_id", Value.vNat 1009),
     ("description", Value.vStr "The best fade Iâ€™ve seen this year."),
     ("views", Value.vNat 300000), ("likes", Value.vNat 45000),
     ("user_id", Value.vStr "u9"), ("upload_date", Value.vStr "2023-10-05")],
    [("video_id", Value.vNat 1010),
     ("description", Value.vStr "Just bought a new car."),
     ("views", Value.vNat 8000), ("likes", Value.vNat 1000),
     ("user_id", Value.vStr "u10"), ("upload_date", Value.vStr "2023-10-05")] ]

/-- The whole run of filter_tiktok_data on a given source outcome.

Source.loadError: control enters the except block of line 75, which prints
and then evaluates the mask of line 93; that line reads the local keywords,
bound only at line 36 inside the failed try, after load_dataset — so a
NameError is raised inside the except handler, propagates, and the write at
line 104 is never reached: the run crashes with no output file.

Source.stream recs raisesAfter: the loop consumes records; if the iterator
raises (only possible before the safety break, i.e. when fewer than 100000
records were yielded) the except block runs with keywords bound: df_filtered
is replaced by the fallback data filtered with the regex
barber|haircut|fade|clippers|shave, case insensitive — an alternation of
literal keywords, hence the same predicate as recordMatches — and the file
is written. Otherwise the accumulated filtered_records are written. Either
way line 115 picks the summary note by testing video_count > 100. -/
def filter_tiktok_data : Source → RunResult
  | Source.loadError => RunResult.crash
  | Source.stream recs raisesAfter =>
    let st := streamLoop recs 0 []
    if raisesAfter && decide (st.1 < 100000) then
      RunResult.wrote (data.filter recordMatches) (decide (100 < st.1))
    else
      RunResult.wrote st.2 (decide (100 < st.1))

/-- The records the source actually delivers into the loop: the safety break
stops pulling from the lazy iterator after the 100000th record. -/
def deliveredRecords (recs : List Record) : List Record :=
  recs.take 100000

/-- Modelled from the spec: the batch-buffer processing policy of section 4.1
(the code itself keeps a single list with no intermediate flush). Matching
records are appended to the current batch buffer; when the buffer reaches the
size threshold it is flushed into the result accumulator and reset; at
end-of-stream the remaining partial buffer is flushed. -/
def batchedLoop (threshold : Nat) : List Record → List Record → List Record → List Record
  | [], buffer, acc => acc ++ buffer
  | r :: rs, buffer, acc =>
    let buffer := if recordMatches r then buffer ++ [r] else buffer
    if threshold ≤ buffer.length then batchedLoop threshold rs [] (acc ++ buffer)
    else batchedLoop threshold rs buffer acc

/-- Modelled from the spec: filtering a sequence with flush boundaries at
threshold-record intervals, starting from an empty buffer and accumulator. -/
def batchedFilter (threshold : Nat) (recs : List Record) : List Record :=
  batchedLoop threshold recs [] []

/-- The three-record stream of the scenario in section 8 of the spec. -/
def scenarioStream : List Record :=
  [[("description", Value.vStr "barber fade")],
   [("description", Value.vStr "cooking tips")],
   [("description", Value.vStr "fresh shave")]]

/-- Closed form of the streaming loop: starting below the safety limit it
processes exactly enough records to reach the limit (or all of them) and
accumulates the matching ones of that prefix, in order. -/
theorem streamLoop_eq (recs : List Record) : ∀ (c : Nat) (acc : List Record),
    c < 100000 →
    streamLoop recs c acc =
      (min (c + recs.length) 100000,
       acc ++ (recs.take (100000 - c)).filter recordMatches) := by
  induction recs with
  | nil =>
    intro c acc hc
    simp only [streamLoop, List.take_nil, List.filter_nil, List.append_nil, List.length_nil,
      Prod.mk.injEq]
    constructor
    · omega
    · trivial
  | cons r rs ih =>
    intro c acc hc
    simp only [streamLoop]
    by_cases hbreak : 100000 ≤ c + 1
    · have hc1 : c = 99999 := by omega
      subst hc1
      simp only [if_pos hbreak]
      have ht : (100000 : Nat) - 99999 = 1 := by norm_num
      rw [ht]
      simp only [List.take_succ_cons, List.take_zero, List.filter_cons, List.filter_nil,
        List.length_cons, Prod.mk.injEq]
      constructor
      · omega
      · by_cases hm : recordMatches r
        · simp [hm]
        · simp [hm]
    · rw [if_neg hbreak]
      have hc1 : c + 1 < 100000 := by omega
      rw [ih (c + 1) _ hc1]
      have ht : (100000 : Nat) - c = (100000 - (c + 1)) + 1 := by omega
      rw [ht]
      simp only [List.take_succ_cons, List.filter_cons, List.length_cons, Prod.mk.injEq]
      constructor
      · omega
      · by_cases hm : recordMatches r
        · simp [hm]
        · simp [hm]

/-- A run whose stream terminates normally writes exactly the matching
records of the delivered prefix, with the summary note of line 115. -/
theorem run_stream_ok (recs : List Record) :
    filter_tiktok_data (Source.stream recs false) =
      RunResult.wrote ((deliveredRecords recs).filter recordMatches)
        (decide (100 < min recs.length 100000)) := by
  have h := streamLoop_eq recs 0 [] (by norm_num)
  simp only [filter_tiktok_data, h, Nat.zero_add, Nat.sub_zero, List.nil_append,
    Bool.false_and, Bool.false_eq_true, if_false, deliveredRecords]

/-- A run whose stream raises after yielding fewer than 100000 records runs
the fallback: the mock data is filtered and written, and the summary note
still reflects the number of real records streamed before the failure. -/
theorem run_stream_raises (recs : List Record) (h : recs.length < 100000) :
    filter_tiktok_data (Source.stream recs true) =
      RunResult.wrote (data.filter recordMatches) (decide (100 < recs.length)) := by
  have hs := streamLoop_eq recs 0 [] (by norm_num)
  have hmin : min (0 + recs.length) 100000 = recs.length := by omega
  simp only [filter_tiktok_data, hs, hmin, Bool.true_and, decide_eq_true_eq]
  rw [if_pos h]

/-- Processing with flush boundaries leaves exactly the accumulated output,
the pending buffer and the matches of the rest, concatenated in order. -/
theorem batchedLoop_eq (threshold : Nat) (rs : List Record) :
    ∀ (buffer acc : List Record),
    batchedLoop threshold rs buffer acc = (acc ++ buffer) ++ rs.filter recordMatches := by
  induction rs with
  | nil =>
    intro buffer acc
    simp [batchedLoop]
  | cons r rest ih =>
    intro buffer acc
    simp only [batchedLoop, List.filter_cons]
    cases hm : recordMatches r with
    | false =>
      simp only [hm, Bool.false_eq_true, if_false]
      by_cases hf : threshold ≤ buffer.length
      · rw [if_pos hf, ih]
        simp
      · rw [if_neg hf, ih]
    | true =>
      simp only [hm, if_true]
      by_cases hf : threshold ≤ (buffer ++ [r]).length
      · rw [if_pos hf, ih]
        simp
      · rw [if_neg hf, ih]
        simp

/-- C1: for every record delivered by the source stream, that record appears
in the output table if and only if its text field is a string containing,
case-insensitively, at least one keyword of the fixed list. -/
theorem C1_match_iff_in_output (recs : List Record) (r : Record) (rows : List Record)
    (streamedNote : Bool)
    (h : filter_tiktok_data (Source.stream recs false) = RunResult.wrote rows streamedNote) :
    r ∈ rows ↔ r ∈ deliveredRecords recs ∧ recordMatches r = true := by
  rw [run_stream_ok] at h
  injection h with h1 h2
  subst h1
  exact List.mem_filter

/-- Witness for C1 on the spec scenario stream: barber fade and fresh shave
are kept, cooking tips is dropped. -/
theorem C1_witness :
    (filter_tiktok_data (Source.stream scenarioStream false) =
      RunResult.wrote
        [[("description", Value.vStr "barber fade")],
         [("description", Value.vStr "fresh shave")]] false) ∧
    ([("description", Value.vStr "barber fade")] ∈
        ([[("description", Value.vStr "barber fade")],
          [("description", Value.vStr "fresh shave")]] : List Record) ↔
      [("description", Value.vStr "barber fade")] ∈ deliveredRecords scenarioStream ∧
        recordMatches [("description", Value.vStr "barber fade")] = true) :=
  ⟨by decide,
   C1_match_iff_in_output scenarioStream [("description", Value.vStr "barber fade")]
     [[("description", Value.vStr "barber fade")],
      [("description", Value.vStr "fresh shave")]] false (by decide)⟩

/-- C5: the safety break stops the loop at 100000 records, so whatever the
source holds after the 100000th record — more records, matching or not, or
even an exception — is never examined and never reaches the output: the run
is identical to the run on the 100000-record prefix alone. -/
theorem C5_safety_break (front extra : List Record) (raisesAfter : Bool)
    (h : front.length = 100000) :
    filter_tiktok_data (Source.stream (front ++ extra) raisesAfter) =
      filter_tiktok_data (Source.stream front false) := by
  have htake : (front ++ extra).take 100000 = front := by
    rw [← h]
    exact List.take_left front extra
  have htake2 : deliveredRecords front = front := by
    rw [deliveredRecords, ← h]
    exact List.take_length front
  have h1 := streamLoop_eq (front ++ extra) 0 [] (by norm_num)
  simp only [Nat.sub_zero, Nat.zero_add, List.nil_append, List.length_append, h, htake] at h1
  have hmin : min (100000 + extra.length) 100000 = 100000 := by omega
  rw [hmin] at h1
  rw [run_stream_ok, htake2]
  simp only [filter_tiktok_data, h1]
  simp [h]

/-- Witness for C5: a stream of 100000 records followed by a matching record
and then an exception behaves exactly like the clean 100000-record stream. -/
theorem C5_witness :
    (List.replicate 100000 ([] : Record)).length = 100000 ∧
    filter_tiktok_data (Source.stream
        (List.replicate 100000 ([] : Record) ++
          [[("description", Value.vStr "fade")]]) true) =
      filter_tiktok_data (Source.stream (List.replicate 100000 ([] : Record)) false) :=
  ⟨by simp only [List.length_replicate],
   C5_safety_break (List.replicate 100000 ([] : Record))
     [[("description", Value.vStr "fade")]] true (by simp only [List.length_replicate])⟩

/-- C6: batching is transparent — for every flush threshold, filtering the
delivered records through the batch-buffer policy (flush at the threshold,
flush once more at end-of-stream) yields exactly the table the run writes,
which is the one-record-at-a-time filtering with no intermediate flush. -/
theorem C6_batching_transparent (threshold : Nat) (recs : List Record) :
    filter_tiktok_data (Source.stream recs false) =
      RunResult.wrote (batchedFilter threshold (deliveredRecords recs))
        (decide (100 < min recs.length 100000)) := by
  rw [run_stream_ok, batchedFilter, batchedLoop_eq]
  simp

/-- C7: the rows of the output table are exactly the matching records in
arrival order, and they form a sublist of the delivered stream, so no record
is written more often than the source delivered it. -/
theorem C7_output_order (recs rows : List Record) (streamedNote : Bool)
    (h : filter_tiktok_data (Source.stream recs false) = RunResult.wrote rows streamedNote) :
    rows = (deliveredRecords recs).filter recordMatches ∧
      List.Sublist rows (deliveredRecords recs) := by
  rw [run_stream_ok] at h
  injection h with h1 h2
  subst h1
  exact ⟨rfl, List.filter_sublist _⟩

/-- Witness for C7 on a concrete two-record stream. -/
theorem C7_witness :
    (filter_tiktok_data (Source.stream
        [[("description", Value.vStr "Time for a clean shave")],
         [("description", Value.vStr "space documentary")]] false) =
      RunResult.wrote [[("description", Value.vStr "Time for a clean shave")]] false) ∧
    ([[("description", Value.vStr "Time for a clean shave")]] =
        (deliveredRecords
          [[("description", Value.vStr "Time for a clean shave")],
           [("description", Value.vStr "space documentary")]]).filter recordMatches ∧
      List.Sublist [[("description", Value.vStr "Time for a clean shave")]]
        (deliveredRecords
          [[("description", Value.vStr "Time for a clean shave")],
           [("description", Value.vStr "space documentary")]])) :=
  ⟨by decide,
   C7_output_order
     [[("description", Value.vStr "Time for a clean shave")],
      [("description", Value.vStr "space documentary")]]
     [[("description", Value.vStr "Time for a clean shave")]] false (by decide)⟩

/-- C2 counterexample: a run in which zero records match still writes the
output file — the write at line 104 is unconditional, so an empty table is
saved instead of the promised skip. -/
theorem C2_counterexample :
    (deliveredRecords [[("description", Value.vStr "cooking tips")]]).filter recordMatches
        = [] ∧
    filter_tiktok_data (Source.stream [[("description", Value.vStr "cooking tips")]] false) =
      RunResult.wrote [] false ∧
    writesFile (filter_tiktok_data
      (Source.stream [[("description", Value.vStr "cooking tips")]] false)) = true := by
  decide

/-- C2 amended: when zero delivered records match, the run still writes the
output file, containing an empty table; the summary then reports 0 saved
rows rather than skipping the write. -/
theorem C2_amended_empty_write (recs : List Record)
    (h : (deliveredRecords recs).filter recordMatches = []) :
    filter_tiktok_data (Source.stream recs false) =
      RunResult.wrote [] (decide (100 < min recs.length 100000)) ∧
    writesFile (filter_tiktok_data (Source.stream recs false)) = true := by
  rw [run_stream_ok, h]
  exact ⟨rfl, rfl⟩

/-- Witness for the amended C2 on a two-record stream with no match. -/
theorem C2_amended_witness :
    ((deliveredRecords [[("description", Value.vStr "cooking tips")],
        [("likes", Value.vNat 3)]]).filter recordMatches = []) ∧
    (filter_tiktok_data (Source.stream [[("description", Value.vStr "cooking tips")],
        [("likes", Value.vNat 3)]] false) =
      RunResult.wrote []
        (decide (100 < min (List.length [[("description", Value.vStr "cooking tips")],
          [("likes", Value.vNat 3)]]) 100000)) ∧
     writesFile (filter_tiktok_data (Source.stream [[("description", Value.vStr "cooking tips")],
        [("likes", Value.vNat 3)]] false)) = true) :=
  ⟨by decide,
   C2_amended_empty_write [[("description", Value.vStr "cooking tips")],
     [("likes", Value.vNat 3)]] (by decide)⟩

/-- C3 counterexample: a source that raises before yielding a single record
does not abort the run without output — the fallback branch runs and the
sink is written. -/
theorem C3_counterexample :
    writesFile (filter_tiktok_data (Source.stream [] true)) = true := by
  decide

/-- C3 amended: an acquisition failure inside load_dataset itself makes the
except handler crash (its mask expression reads the keywords local, which
the failed try never bound), so that run aborts and writes nothing; but an
acquisition failure raised by the stream after a successful load — even
before the first record — triggers the fallback, which writes the mock-data
output file. -/
theorem C3_amended_load_vs_stream :
    filter_tiktok_data Source.loadError = RunResult.crash ∧
    writesFile (filter_tiktok_data Source.loadError) = false ∧
    ∀ recs : List Record, recs.length < 100000 →
      filter_tiktok_data (Source.stream recs true) =
        RunResult.wrote (data.filter recordMatches) (decide (100 < recs.length)) := by
  refine ⟨rfl, rfl, ?_⟩
  intro recs h
  exact run_stream_raises recs h

/-- Witness for the amended C3 at the empty failing stream. -/
theorem C3_amended_witness :
    filter_tiktok_data Source.loadError = RunResult.crash ∧
    writesFile (filter_tiktok_data Source.loadError) = false ∧
    (List.length ([] : List Record) < 100000 ∧
      filter_tiktok_data (Source.stream [] true) =
        RunResult.wrote (data.filter recordMatches)
          (decide (100 < List.length ([] : List Record)))) :=
  ⟨C3_amended_load_vs_stream.1, C3_amended_load_vs_stream.2.1,
   by decide, C3_amended_load_vs_stream.2.2 [] (by decide)⟩

/-- C4 counterexample: an exception during loading does not lead to the
fallback file — the run crashes in the except handler and no output file is
produced, refuting the claim for load-time unavailability. -/
theorem C4_counterexample :
    filter_tiktok_data Source.loadError = RunResult.crash ∧
    writesFile (filter_tiktok_data Source.loadError) = false :=
  ⟨rfl, rfl⟩

/-- C4 amended: when the stream fails after a successful load, the run
substitutes the ten sample records, filters them with the keyword predicate
and still writes an output file; the summary separates fallback from real
runs only through the video_count > 100 heuristic, so a fallback run that
had already streamed more than 100 real records is labelled like a real
streaming run (and a load-time failure crashes with no file at all). -/
theorem C4_amended_fallback (recs : List Record) (h : recs.length < 100000) :
    filter_tiktok_data (Source.stream recs true) =
      RunResult.wrote (data.filter recordMatches) (decide (100 < recs.length)) ∧
    List.Sublist (data.filter recordMatches) data :=
  ⟨run_stream_raises recs h, List.filter_sublist data⟩

/-- Witness for the amended C4 after 150 streamed records: the fallback file
is written but the summary note is the streaming one, since 150 > 100. -/
theorem C4_amended_witness :
    (List.replicate 150 ([] : Record)).length < 100000 ∧
    (filter_tiktok_data (Source.stream (List.replicate 150 ([] : Record)) true) =
       RunResult.wrote (data.filter recordMatches)
         (decide (100 < (List.replicate 150 ([] : Record)).length)) ∧
     List.Sublist (data.filter recordMatches) data) :=
  ⟨by simp only [List.length_replicate]; decide,
   C4_amended_fallback (List.replicate 150 ([] : Record))
     (by simp only [List.length_replicate]; decide)⟩

/-- C8 counterexample: the filter reads the text only from the field named
description, so a record carrying its keyword text under desc is treated as
a non-match and the run writes an empty table. -/
theorem C8_counterexample :
    recordMatches [("desc", Value.vStr "Fresh haircut by my local barber!")] = false ∧
    filter_tiktok_data (Source.stream
        [[("desc", Value.vStr "Fresh haircut by my local barber!")]] false) =
      RunResult.wrote [] false := by
  decide

/-- C8 amended: the text field is looked up only under the name description;
a record with no description binding — whatever other fields such as desc it
carries — is a non-match and is excluded from the written table. -/
theorem C8_amended_description_only (r : Record) (recs : List Record)
    (h : findVal r "description" = none) :
    recordMatches r = false ∧
    r ∉ (deliveredRecords recs).filter recordMatches ∧
    filter_tiktok_data (Source.stream recs false) =
      RunResult.wrote ((deliveredRecords recs).filter recordMatches)
        (decide (100 < min recs.length 100000)) := by
  have hm : recordMatches r = false := by
    unfold recordMatches getD
    rw [h]
    decide
  refine ⟨hm, ?_, run_stream_ok recs⟩
  intro hr
  have hmem := List.mem_filter.mp hr
  simp [hm] at hmem

/-- Witness for the amended C8 on a record whose text sits under desc. -/
theorem C8_amended_witness :
    findVal [("desc", Value.vStr "clippers time")] "description" = none ∧
    (recordMatches [("desc", Value.vStr "clippers time")] = false ∧
     [("desc", Value.vStr "clippers time")] ∉
       (deliveredRecords [[("desc", Value.vStr "clippers time")]]).filter recordMatches ∧
     filter_tiktok_data (Source.stream [[("desc", Value.vStr "clippers time")]] false) =
       RunResult.wrote
         ((deliveredRecords [[("desc", Value.vStr "clippers time")]]).filter recordMatches)
         (decide (100 < min (List.length [[("desc", Value.vStr "clippers time")]]) 100000))) :=
  ⟨by decide,
   C8_amended_description_only [("desc", Value.vStr "clippers time")]
     [[("desc", Value.vStr "clippers time")]] (by decide)⟩

/-- C9: a record whose text field is missing entirely, or bound to a
non-string value, is treated as a non-match and excluded from the output,
while the rest of the stream is still filtered and written normally. -/
theorem C9_tolerable_record (r : Record) (pre post : List Record)
    (h : findVal r "description" = none ∨
         ∃ n, findVal r "description" = some (Value.vNat n)) :
    recordMatches r = false ∧
    r ∉ (deliveredRecords (pre ++ r :: post)).filter recordMatches ∧
    filter_tiktok_data (Source.stream (pre ++ r :: post) false) =
      RunResult.wrote ((deliveredRecords (pre ++ r :: post)).filter recordMatches)
        (decide (100 < min (pre ++ r :: post).length 100000)) := by
  have hm : recordMatches r = false := by
    rcases h with h | ⟨n, h⟩
    · unfold recordMatches getD
      rw [h]
      decide
    · unfold recordMatches getD
      rw [h]
      rfl
  refine ⟨hm, ?_, run_stream_ok _⟩
  intro hr
  have hmem := List.mem_filter.mp hr
  simp [hm] at hmem

/-- Witness for C9: a record with no text field, followed by a matching one,
is dropped while the run completes and writes the table. -/
theorem C9_witness :
    (findVal [("views", Value.vNat 7)] "description" = none ∨
      ∃ n, findVal [("views", Value.vNat 7)] "description" = some (Value.vNat n)) ∧
    (recordMatches [("views", Value.vNat 7)] = false ∧
     [("views", Value.vNat 7)] ∉
       (deliveredRecords ([] ++ [("views", Value.vNat 7)] ::
         [[("description", Value.vStr "clippers at work")]])).filter recordMatches ∧
     filter_tiktok_data (Source.stream ([] ++ [("views", Value.vNat 7)] ::
         [[("description", Value.vStr "clippers at work")]]) false) =
       RunResult.wrote
         ((deliveredRecords ([] ++ [("views", Value.vNat 7)] ::
           [[("description", Value.vStr "clippers at work")]])).filter recordMatches)
         (decide (100 < min (List.length ([] ++ [("views", Value.vNat 7)] ::
           [[("description", Value.vStr "clippers at work")]])) 100000))) :=
  ⟨Or.inl (by decide),
   C9_tolerable_record [("views", Value.vNat 7)] []
     [[("description", Value.vStr "clippers at work")]] (Or.inl (by decide))⟩

/-- C10: when the stream raises after records were already processed, the
matches accumulated from the real source are discarded: the written table is
exactly the mock records that satisfy the keyword predicate, a sublist of
the fixed fallback data. -/
theorem C10_fallback_discards (recs : List Record)
    (h1 : recs.length < 100000) (_h2 : 0 < recs.length) :
    filter_tiktok_data (Source.stream recs true) =
      RunResult.wrote (data.filter recordMatches) (decide (100 < recs.length)) ∧
    List.Sublist (data.filter recordMatches) data :=
  ⟨run_stream_raises recs h1, List.filter_sublist data⟩

/-- Witness for C10: one real matching record is streamed, then the source
fails; the written table is the filtered mock data, not the real match. -/
theorem C10_witness :
    List.length [[("description", Value.vStr "Best barber in town")]] < 100000 ∧
    0 < List.length [[("description", Value.vStr "Best barber in town")]] ∧
    (filter_tiktok_data
        (Source.stream [[("description", Value.vStr "Best barber in town")]] true) =
      RunResult.wrote (data.filter recordMatches)
        (decide (100 < List.length [[("description", Value.vStr "Best barber in town")]])) ∧
     List.Sublist (data.filter recordMatches) data) :=
  ⟨by decide, by decide,
   C10_fallback_discards [[("description", Value.vStr "Best barber in town")]]
     (by decide) (by decide)⟩

end TikTokBarber
